import Mathlib

/-!
Shallow embedding of the token-caching scrape core of the Docker Hub
rate-limit exporter (`main.go`), and proofs of the specified properties.

Modelling conventions:
* Instants (`time.Time`) are integer nanosecond offsets from an arbitrary
  epoch; Go durations (`time.Duration`) count nanoseconds, so one second is
  `10^9`.  Duration overflow (validity beyond roughly 292 years) is outside
  the model.
* The injected clock (`Exporter.clock`) is modelled by the instant it returns
  during the call under consideration (`Env.now`).
* Receiver mutation is made explicit: every method that can write to the
  `Exporter` returns the post-call state alongside its Go return values.
* Prometheus counters are monotone and incremented in whole steps, so they
  are naturals; the gauges hold the exact rational values parsed from the
  headers (`strconv.ParseFloat` is exact on the plain decimal notation that
  occurs in rate-limit headers).
-/

namespace DockerHubExporter

/-- One second expressed in nanoseconds (`time.Second`). -/
def secondNs : Int := 1000000000

/-- `tokenExpiryBufferInSeconds` from `main.go`: the NTP-drift allowance used
by the usability judgment. -/
def tokenExpiryBufferInSeconds : Int := 2

/-- `AuthTokenResponse` from `main.go`: the decoded JSON body of the
authentication endpoint.  `issuedAt` is a `time.Time`, modelled as an integer
nanosecond instant. -/
structure AuthTokenResponse where
  token : String
  accessToken : String
  expiresIn : Int
  issuedAt : Int
deriving Repr, DecidableEq

/-- `AuthTokenResponse.roughExpiry`:
`a.IssuedAt.Add(time.Second * time.Duration(a.ExpiresIn - tokenExpiryBufferInSeconds))`. -/
def AuthTokenResponse.roughExpiry (a : AuthTokenResponse) : Int :=
  a.issuedAt + secondNs * (a.expiresIn - tokenExpiryBufferInSeconds)

/-- `AuthTokenResponse.isUsable`: `now().Before(a.roughExpiry())`, evaluated at
the instant `now` returned by the injected clock. -/
def AuthTokenResponse.isUsable (a : AuthTokenResponse) (now : Int) : Bool :=
  now < a.roughExpiry

/-- Numeric value of a digit list, most significant first. -/
def digitsVal (cs : List Char) : Nat :=
  cs.foldl (fun n c => n * 10 + (c.toNat - 48)) 0

/-- `strings.TrimSpace`: drop leading and trailing whitespace. -/
def trimSpace (cs : List Char) : List Char :=
  ((cs.dropWhile Char.isWhitespace).reverse.dropWhile Char.isWhitespace).reverse

/-- `strconv.ParseFloat` restricted to plain decimal notation
(optional sign, digits, optional fraction, at least one digit), returning the
exact rational value.  The exponent, hex-float and inf/nan forms Go also
accepts never occur in rate-limit headers and are modelled as failures. -/
def parseDecimal (cs : List Char) : Option ℚ :=
  let parseBody : List Char → Option ℚ := fun body =>
    let ip := body.takeWhile Char.isDigit
    let rest := body.dropWhile Char.isDigit
    match rest with
    | [] => if ip = [] then none else some (digitsVal ip)
    | c :: frac =>
      if c = Char.ofNat 46 ∧ frac.all Char.isDigit ∧ ¬(ip = [] ∧ frac = []) then
        some (Rat.divInt (digitsVal ip * 10 ^ frac.length + digitsVal frac) (10 ^ frac.length))
      else none
  match cs with
  | c :: rest =>
    if c = Char.ofNat 45 then (parseBody rest).map (fun q => -q)
    else if c = Char.ofNat 43 then parseBody rest
    else parseBody (c :: rest)
  | [] => none

/-- `parseFloat` from `main.go`:
`strconv.ParseFloat(strings.Split(strings.TrimSpace(s), ";")[0], 64)`.
Element `[0]` of the split is the prefix of the trimmed string before its
first `;` (the whole string when there is none). -/
def parseFloat (s : String) : Option ℚ :=
  parseDecimal ((trimSpace s.toList).takeWhile (fun c => c ≠ Char.ofNat 59))

/-- The auth-endpoint body as `encoding/json` sees it when decoded into an
`AuthTokenResponse`: either not a well-formed value of that shape
(`malformed`, covering invalid JSON and type-mismatched fields, on which
`Decode` errors) or a JSON object carrying any subset of the four expected
fields (on which `Decode` succeeds, leaving absent fields at their Go zero
values). -/
inductive JsonBody where
  | malformed
  | obj (token : Option String) (accessToken : Option String)
      (expiresIn : Option Int) (issuedAt : Option Int)
deriving Repr, DecidableEq

/-- `json.Decoder.Decode` into an `AuthTokenResponse`: absent fields keep the
Go zero value (empty string, `0`; the zero `time.Time` is modelled as
instant `0`). -/
def decodeAuthTokenResponse : JsonBody → Option AuthTokenResponse
  | .malformed => none
  | .obj t a e i => some ⟨t.getD "", a.getD "", e.getD 0, i.getD 0⟩

/-- An HTTP response as the code consumes it: status code, response headers,
and (for the auth endpoint) a JSON body. -/
structure Response where
  statusCode : Int
  headers : List (String × String)
  body : JsonBody
deriving Repr, DecidableEq

/-- `res.Header.Get(key)`: the first value for the key, or the empty string
when the header is absent (MIME key canonicalisation is elided; lookups use
exactly the names the code passes). -/
def Response.getHeader (r : Response) (key : String) : String :=
  (r.headers.lookup key).getD ""

/-- The fields of `Exporter` that the scrape core reads and writes. -/
structure Exporter where
  totalScrapes : Nat
  scrapeFailures : Nat
  limit : ℚ
  remaining : ℚ
  sourceIP : String
  authToken : Option AuthTokenResponse
deriving Repr, DecidableEq

/-- `NewExporter`: zero counters, zero-valued observation, no cached
credential. -/
def NewExporter : Exporter :=
  ⟨0, 0, 0, 0, "", none⟩

/-- The external world of one scrape: the instant the injected clock returns,
and the answers of the two endpoints (`none` is a transport-level failure:
connection refused, timeout, malformed URL). -/
structure Env where
  now : Int
  authResponse : Option Response
  probeResponse : Option Response
deriving Repr, DecidableEq

/-- `fetchHTTP`: propagate transport errors; require
`resp.StatusCode >= 200 && resp.StatusCode < 300`, otherwise close the body
and fail. -/
def fetchHTTP : Option Response → Except Unit Response
  | none => .error ()
  | some resp =>
    if 200 ≤ resp.statusCode ∧ resp.statusCode < 300 then .ok resp else .error ()

/-- `parseRateLimitHeaders` from `main.go`: parse `RateLimit-Limit`, then
`RateLimit-Remaining`, failing as soon as either does not parse; the
`docker-ratelimit-source` header is read last and its absence (empty string)
is not an error. -/
def parseRateLimitHeaders (res : Response) : Except Unit (ℚ × ℚ × String) :=
  match parseFloat (res.getHeader "RateLimit-Limit") with
  | none => .error ()
  | some limit =>
    match parseFloat (res.getHeader "RateLimit-Remaining") with
    | none => .error ()
    | some remaining => .ok (limit, remaining, res.getHeader "docker-ratelimit-source")

/-- `Exporter.hasUsableToken`: false when no credential is cached, else the
cached credential judged against the injected clock. -/
def Exporter.hasUsableToken (e : Exporter) (now : Int) : Bool :=
  match e.authToken with
  | none => false
  | some t => t.isUsable now

/-- `Exporter.parseTokenResponse` with the receiver mutation explicit: decode
the body; on error return with the cache untouched; on success store the new
credential wholesale and return (a pointer to) its `token` field. -/
def Exporter.parseTokenResponse (e : Exporter) (body : JsonBody) :
    Except Unit String × Exporter :=
  match decodeAuthTokenResponse body with
  | none => (.error (), e)
  | some token => (.ok token.token, { e with authToken := some token })

/-- Result of `fetchToken`: the Go return value, the post-call exporter state,
and the number of requests issued to the authentication endpoint (so
non-invocation of that endpoint is observable). -/
structure FetchTokenResult where
  result : Except Unit String
  exporter : Exporter
  authCalls : Nat
deriving Repr

/-- `Exporter.fetchToken`: when the cached credential is judged usable, return
(a pointer to) its `access_token` field without touching the network;
otherwise exchange against the authentication endpoint (the optional
Basic-auth header does not affect the modelled outcome) and parse the body.
The `none` inner branch is unreachable: `hasUsableToken` implies a cached
credential exists. -/
def Exporter.fetchToken (e : Exporter) (env : Env) : FetchTokenResult :=
  if e.hasUsableToken env.now then
    match e.authToken with
    | some t => ⟨.ok t.accessToken, e, 0⟩
    | none => ⟨.error (), e, 0⟩
  else
    match fetchHTTP env.authResponse with
    | .error _ => ⟨.error (), e, 1⟩
    | .ok r => ⟨(e.parseTokenResponse r.body).1, (e.parseTokenResponse r.body).2, 1⟩

/-- Result of `fetchRateLimit`: the Go return values, the post-call exporter
state, the auth-endpoint call count, and the `Authorization` value attached
to the probe request (`none` when no probe request was constructed). -/
structure FetchRateLimitResult where
  result : Except Unit (ℚ × ℚ × String)
  exporter : Exporter
  authCalls : Nat
  bearer : Option String
deriving Repr

/-- `Exporter.fetchRateLimit`: obtain a token, issue the HEAD probe carrying
`"Bearer " ++ token`, and parse the rate-limit headers.  Each failure
propagates immediately. -/
def Exporter.fetchRateLimit (e : Exporter) (env : Env) : FetchRateLimitResult :=
  match e.fetchToken env with
  | ⟨.error _, ex, n⟩ => ⟨.error (), ex, n, none⟩
  | ⟨.ok token, ex, n⟩ =>
    match fetchHTTP env.probeResponse with
    | .error _ => ⟨.error (), ex, n, some ("Bearer " ++ token)⟩
    | .ok res => ⟨parseRateLimitHeaders res, ex, n, some ("Bearer " ++ token)⟩

/-- `Exporter.scrape`: bump the attempts counter first; on any failure bump
the failure counter (the error is logged to stderr and absorbed, never
returned — the model is a total function on states); on success publish
limit, remaining and source together. -/
def Exporter.scrape (e : Exporter) (env : Env) : Exporter :=
  match ({ e with totalScrapes := e.totalScrapes + 1 } : Exporter).fetchRateLimit env with
  | ⟨.error _, ex, _, _⟩ => { ex with scrapeFailures := ex.scrapeFailures + 1 }
  | ⟨.ok (l, r, s), ex, _, _⟩ => { ex with limit := l, remaining := r, sourceIP := s }

/-- A sequence of scrapes, each against its own external world. -/
def Exporter.scrapeSeq (e : Exporter) : List Env → Exporter
  | [] => e
  | env :: rest => (e.scrape env).scrapeSeq rest

/-- The exporter right after the unconditional attempts-counter increment
that opens every scrape. -/
def Exporter.bumped (e : Exporter) : Exporter :=
  { e with totalScrapes := e.totalScrapes + 1 }

/-! ### Concrete worlds used by the closed instances below -/

/-- Auth endpoint answers 200 with the empty JSON object (a body with none of
the expected fields); the probe answers 200 with parsable limit and remaining
headers. -/
def emptyObjectEnv : Env :=
  ⟨0, some ⟨200, [], .obj none none none none⟩,
    some ⟨200, [("RateLimit-Limit", "100;m21600"),
      ("RateLimit-Remaining", "76;m21600")], .malformed⟩⟩

/-- Auth endpoint answers 200 with a fully populated token body; the probe
answers 200 with the headers of the happy-path test. -/
def happyEnv : Env :=
  ⟨0, some ⟨200, [], .obj (some "tokT") (some "tokA") (some 300) (some 0)⟩,
    some ⟨200, [("RateLimit-Limit", "100;m21600"),
      ("RateLimit-Remaining", "76;m21600")], .malformed⟩⟩

/-- A concrete cached credential, valid for 300 seconds from instant 0. -/
def cachedTok : AuthTokenResponse :=
  ⟨"tokT", "tokA", 300, 0⟩

/-- An exporter holding `cachedTok`. -/
def cachedExporter : Exporter :=
  { NewExporter with authToken := some cachedTok }

/-- Auth endpoint answers 200 with a token whose `token` and `access_token`
fields differ; no probe endpoint. -/
def asymEnv : Env :=
  ⟨0, some ⟨200, [], .obj (some "A") (some "B") (some 300) (some 0)⟩, none⟩

/-- Auth endpoint answers 200 with a token whose `expires_in` (1 second) is
below the expiry buffer; no probe endpoint. -/
def shortEnv : Env :=
  ⟨5, some ⟨200, [], .obj (some "sT") (some "sA") (some 1) (some 0)⟩, none⟩

/-! ### Helper lemmas -/

/-- The only `Exporter` field `fetchToken` can write is the cached
credential. -/
theorem fetchToken_exporter_eq (e : Exporter) (env : Env) :
    ∃ a, (e.fetchToken env).exporter = { e with authToken := a } := by
  unfold Exporter.fetchToken
  split
  · split
    · exact ⟨e.authToken, rfl⟩
    · exact ⟨e.authToken, rfl⟩
  · split
    · exact ⟨e.authToken, rfl⟩
    · unfold Exporter.parseTokenResponse
      rcases hdec : decodeAuthTokenResponse _ with _ | t
      · exact ⟨e.authToken, by simp [hdec]⟩
      · exact ⟨some t, by simp [hdec]⟩

/-- `fetchRateLimit` passes the exporter state produced by `fetchToken`
through unchanged, whichever way the probe goes. -/
theorem fetchRateLimit_exporter (e : Exporter) (env : Env) :
    (e.fetchRateLimit env).exporter = (e.fetchToken env).exporter := by
  rcases hft : e.fetchToken env with ⟨res, ex, n⟩
  unfold Exporter.fetchRateLimit
  rw [hft]
  cases res
  · rfl
  · cases fetchHTTP env.probeResponse <;> rfl

/-- Characterisation of `scrape` by the outcome of the `fetchRateLimit` call
it makes on the bumped exporter. -/
theorem scrape_cases (e : Exporter) (env : Env) :
    ((e.bumped.fetchRateLimit env).result.isOk = false ∧
      e.scrape env = { (e.bumped.fetchRateLimit env).exporter with
        scrapeFailures := (e.bumped.fetchRateLimit env).exporter.scrapeFailures + 1 }) ∨
    (∃ l r s, (e.bumped.fetchRateLimit env).result = .ok (l, r, s) ∧
      e.scrape env = { (e.bumped.fetchRateLimit env).exporter with
        limit := l, remaining := r, sourceIP := s }) := by
  unfold Exporter.scrape Exporter.bumped
  rcases hfr : ({ e with totalScrapes := e.totalScrapes + 1 } : Exporter).fetchRateLimit env
    with ⟨res, ex, n, b⟩
  cases res with
  | error u => exact Or.inl ⟨rfl, rfl⟩
  | ok v =>
    obtain ⟨l, r, s⟩ := v
    exact Or.inr ⟨l, r, s, rfl, rfl⟩

/-- `scrape` always bumps the attempts counter by exactly one. -/
theorem scrape_totalScrapes (e : Exporter) (env : Env) :
    (e.scrape env).totalScrapes = e.totalScrapes + 1 := by
  obtain ⟨a, ha⟩ := fetchToken_exporter_eq e.bumped env
  have hx := fetchRateLimit_exporter e.bumped env
  rw [ha] at hx
  rcases scrape_cases e env with ⟨_, hs⟩ | ⟨l, r, s, _, hs⟩ <;>
    rw [hs, hx] <;> simp [Exporter.bumped]

/-- A failed `fetchRateLimit` makes `scrape` bump the failure counter by
exactly one. -/
theorem scrape_failures_fail (e : Exporter) (env : Env)
    (h : (e.bumped.fetchRateLimit env).result.isOk = false) :
    (e.scrape env).scrapeFailures = e.scrapeFailures + 1 := by
  obtain ⟨a, ha⟩ := fetchToken_exporter_eq e.bumped env
  have hx := fetchRateLimit_exporter e.bumped env
  rw [ha] at hx
  rcases scrape_cases e env with ⟨_, hs⟩ | ⟨l, r, s, hres, hs⟩
  · rw [hs, hx]; simp [Exporter.bumped]
  · rw [hres] at h; simp [Except.isOk, Except.toBool] at h

/-- A successful `fetchRateLimit` leaves the failure counter unchanged. -/
theorem scrape_failures_ok (e : Exporter) (env : Env)
    (h : (e.bumped.fetchRateLimit env).result.isOk = true) :
    (e.scrape env).scrapeFailures = e.scrapeFailures := by
  obtain ⟨a, ha⟩ := fetchToken_exporter_eq e.bumped env
  have hx := fetchRateLimit_exporter e.bumped env
  rw [ha] at hx
  rcases scrape_cases e env with ⟨hres, hs⟩ | ⟨l, r, s, hres, hs⟩
  · rw [hres] at h; simp [Except.isOk, Except.toBool] at h
  · rw [hs, hx]; simp [Exporter.bumped]

/-- The failure counter never decreases across one scrape. -/
theorem scrape_failures_le (e : Exporter) (env : Env) :
    e.scrapeFailures ≤ (e.scrape env).scrapeFailures := by
  rcases h : (e.bumped.fetchRateLimit env).result.isOk
  · rw [scrape_failures_fail e env h]; omega
  · rw [scrape_failures_ok e env h]

/-- The attempts counter never decreases across a sequence of scrapes. -/
theorem scrapeSeq_totalScrapes_le (envs : List Env) (e : Exporter) :
    e.totalScrapes ≤ (e.scrapeSeq envs).totalScrapes := by
  induction envs generalizing e with
  | nil => exact Nat.le_refl _
  | cons env rest ih =>
    have h1 : e.totalScrapes ≤ (e.scrape env).totalScrapes := by
      rw [scrape_totalScrapes]; omega
    exact Nat.le_trans h1 (ih (e.scrape env))

/-- The failure counter never decreases across a sequence of scrapes. -/
theorem scrapeSeq_failures_le (envs : List Env) (e : Exporter) :
    e.scrapeFailures ≤ (e.scrapeSeq envs).scrapeFailures := by
  induction envs generalizing e with
  | nil => exact Nat.le_refl _
  | cons env rest ih =>
    exact Nat.le_trans (scrape_failures_le e env) (ih (e.scrape env))

/-- The fresh-exchange path of `fetchToken`, taken whenever no usable
credential is cached: one request is issued and the outcome is decided by
`fetchHTTP` and the body decoder. -/
theorem fetchToken_fresh (e : Exporter) (env : Env)
    (hu : e.hasUsableToken env.now = false) :
    (fetchHTTP env.authResponse = .error () ∧ e.fetchToken env = ⟨.error (), e, 1⟩) ∨
    (∃ r, fetchHTTP env.authResponse = .ok r ∧
      ((decodeAuthTokenResponse r.body = none ∧ e.fetchToken env = ⟨.error (), e, 1⟩) ∨
       (∃ t, decodeAuthTokenResponse r.body = some t ∧
         e.fetchToken env = ⟨.ok t.token, { e with authToken := some t }, 1⟩))) := by
  have hif : e.fetchToken env =
      match fetchHTTP env.authResponse with
      | .error _ => ⟨.error (), e, 1⟩
      | .ok r => ⟨(e.parseTokenResponse r.body).1, (e.parseTokenResponse r.body).2, 1⟩ := by
    unfold Exporter.fetchToken
    rw [hu, if_neg (by decide : ¬(false = true))]
  rcases hH : fetchHTTP env.authResponse with u | r
  · cases u
    refine Or.inl ⟨rfl, ?_⟩
    rw [hif, hH]
  · refine Or.inr ⟨r, rfl, ?_⟩
    rcases hdec : decodeAuthTokenResponse r.body with _ | t
    · refine Or.inl ⟨rfl, ?_⟩
      rw [hif, hH]
      unfold Exporter.parseTokenResponse
      dsimp only
      rw [hdec]
    · refine Or.inr ⟨t, rfl, ?_⟩
      rw [hif, hH]
      unfold Exporter.parseTokenResponse
      dsimp only
      rw [hdec]

/-- Full case analysis of `fetchToken`: either the cached credential is
usable and is handed back without any auth call, or the fresh-exchange path
of `fetchToken_fresh` runs. -/
theorem fetchToken_cases (e : Exporter) (env : Env) :
    (∃ t, e.authToken = some t ∧ t.isUsable env.now = true ∧
      e.fetchToken env = ⟨.ok t.accessToken, e, 0⟩) ∨
    (e.hasUsableToken env.now = false ∧
      ((fetchHTTP env.authResponse = .error () ∧ e.fetchToken env = ⟨.error (), e, 1⟩) ∨
       (∃ r, fetchHTTP env.authResponse = .ok r ∧
         ((decodeAuthTokenResponse r.body = none ∧ e.fetchToken env = ⟨.error (), e, 1⟩) ∨
          (∃ t, decodeAuthTokenResponse r.body = some t ∧
            e.fetchToken env = ⟨.ok t.token, { e with authToken := some t }, 1⟩))))) := by
  rcases ht : e.authToken with _ | t
  · have hu : e.hasUsableToken env.now = false := by
      unfold Exporter.hasUsableToken
      rw [ht]
    exact Or.inr ⟨hu, fetchToken_fresh e env hu⟩
  · have hu : e.hasUsableToken env.now = t.isUsable env.now := by
      unfold Exporter.hasUsableToken
      rw [ht]
    rcases hi : t.isUsable env.now with _ | _
    · rw [hi] at hu
      exact Or.inr ⟨hu, fetchToken_fresh e env hu⟩
    · left
      refine ⟨t, rfl, hi, ?_⟩
      unfold Exporter.fetchToken
      rw [hu, hi, if_pos rfl, ht]

/-- A failed fetch leaves the published observation untouched. -/
theorem scrape_obs_of_fail (e : Exporter) (env : Env)
    (h : (e.bumped.fetchRateLimit env).result.isOk = false) :
    (e.scrape env).limit = e.limit ∧ (e.scrape env).remaining = e.remaining ∧
      (e.scrape env).sourceIP = e.sourceIP := by
  obtain ⟨a, ha⟩ := fetchToken_exporter_eq e.bumped env
  have hx := fetchRateLimit_exporter e.bumped env
  rw [ha] at hx
  rcases scrape_cases e env with ⟨_, hs⟩ | ⟨l, r, s, hres, hs⟩
  · rw [hs, hx]; simp [Exporter.bumped]
  · rw [hres] at h; simp [Except.isOk, Except.toBool] at h

/-- A successful fetch publishes exactly the parsed triple. -/
theorem scrape_obs_of_ok (e : Exporter) (env : Env) (l r : ℚ) (s : String)
    (h : (e.bumped.fetchRateLimit env).result = .ok (l, r, s)) :
    (e.scrape env).limit = l ∧ (e.scrape env).remaining = r ∧
      (e.scrape env).sourceIP = s := by
  obtain ⟨a, ha⟩ := fetchToken_exporter_eq e.bumped env
  have hx := fetchRateLimit_exporter e.bumped env
  rw [ha] at hx
  rcases scrape_cases e env with ⟨hbad, hs⟩ | ⟨l2, r2, s2, hres2, hs⟩
  · rw [h] at hbad; simp [Except.isOk, Except.toBool] at hbad
  · rw [h] at hres2
    obtain ⟨hl, hr, hs2⟩ : l = l2 ∧ r = r2 ∧ s = s2 := by
      simpa using hres2
    subst hl hr hs2
    rw [hs]; simp

/-- Reuse of a usable cached credential: `fetchToken` answers from the cache,
issues no auth request and leaves the state untouched. -/
theorem fetchToken_cached (e : Exporter) (env : Env) (t : AuthTokenResponse)
    (hcache : e.authToken = some t) (husable : t.isUsable env.now = true) :
    e.fetchToken env = ⟨.ok t.accessToken, e, 0⟩ := by
  have hu : e.hasUsableToken env.now = true := by
    unfold Exporter.hasUsableToken
    rw [hcache]
    exact husable
  unfold Exporter.fetchToken
  rw [hu, if_pos rfl, hcache]

/-- A fresh exchange against a 2xx auth response with a decodable body
succeeds and stores the decoded credential wholesale. -/
theorem fetchToken_fresh_ok (e : Exporter) (env : Env) (r : Response)
    (t : AuthTokenResponse)
    (hno : e.hasUsableToken env.now = false)
    (hr : env.authResponse = some r)
    (hst : 200 ≤ r.statusCode ∧ r.statusCode < 300)
    (hdec : decodeAuthTokenResponse r.body = some t) :
    e.fetchToken env = ⟨.ok t.token, { e with authToken := some t }, 1⟩ := by
  rcases fetchToken_fresh e env hno with ⟨hH, hft⟩ | ⟨r2, hH, ⟨hd, hft⟩ | ⟨t2, hd, hft⟩⟩
  all_goals rw [hr] at hH
  all_goals unfold fetchHTTP at hH
  all_goals dsimp only at hH
  all_goals rw [if_pos hst] at hH
  · cases hH
  · injection hH with h2
    subst h2
    rw [hdec] at hd
    cases hd
  · injection hH with h2
    subst h2
    rw [hdec] at hd
    injection hd with h3
    subst h3
    exact hft

/-- When `fetchToken` succeeds and the probe answers 2xx, `fetchRateLimit`
hands the probe response to the header parser and attaches the bearer built
from the returned token. -/
theorem fetchRateLimit_result_of_token_ok (e : Exporter) (env : Env) (tok : String)
    (pr : Response)
    (htok : (e.fetchToken env).result = .ok tok)
    (hpr : env.probeResponse = some pr)
    (hst : 200 ≤ pr.statusCode ∧ pr.statusCode < 300) :
    (e.fetchRateLimit env).result = parseRateLimitHeaders pr ∧
    (e.fetchRateLimit env).bearer = some ("Bearer " ++ tok) := by
  rcases hft : e.fetchToken env with ⟨res, ex, n⟩
  rw [hft] at htok
  dsimp only at htok
  subst htok
  have hprobe : fetchHTTP env.probeResponse = .ok pr := by
    rw [hpr]
    unfold fetchHTTP
    dsimp only
    rw [if_pos hst]
  unfold Exporter.fetchRateLimit
  rw [hft]
  dsimp only
  rw [hprobe]
  exact ⟨rfl, rfl⟩

/-! ### Claim theorems -/

/-- C1: `isUsable` returns true exactly when the injected clock reads
strictly before `issuedAt + (validitySeconds − bufferSeconds)` seconds; in
particular with `bufferSeconds < validitySeconds` the credential is usable at
`issuedAt` and unusable at the threshold instant and thereafter, and with
`validitySeconds ≤ bufferSeconds` it is unusable already at `issuedAt`. -/
theorem isUsable_spec (a : AuthTokenResponse) (now : Int) :
    (a.isUsable now = true ↔
      now < a.issuedAt + secondNs * (a.expiresIn - tokenExpiryBufferInSeconds)) ∧
    (tokenExpiryBufferInSeconds < a.expiresIn →
      a.isUsable a.issuedAt = true ∧
      ∀ t : Int, a.issuedAt + secondNs * (a.expiresIn - tokenExpiryBufferInSeconds) ≤ t →
        a.isUsable t = false) ∧
    (a.expiresIn ≤ tokenExpiryBufferInSeconds → a.isUsable a.issuedAt = false) := by
  unfold AuthTokenResponse.isUsable AuthTokenResponse.roughExpiry
    secondNs tokenExpiryBufferInSeconds
  refine ⟨by simp, fun h => ⟨by simp; omega, fun t ht => by simp; omega⟩, fun h => by simp; omega⟩

/-- Closed instance of `isUsable_spec` at a concrete credential and clock. -/
theorem isUsable_spec_witness :
    (((⟨"t", "a", 300, 7⟩ : AuthTokenResponse).isUsable 7 = true ↔
      (7 : Int) < 7 + secondNs * (300 - tokenExpiryBufferInSeconds)) ∧
    (tokenExpiryBufferInSeconds < (300 : Int) →
      (⟨"t", "a", 300, 7⟩ : AuthTokenResponse).isUsable 7 = true ∧
      ∀ t : Int, 7 + secondNs * (300 - tokenExpiryBufferInSeconds) ≤ t →
        (⟨"t", "a", 300, 7⟩ : AuthTokenResponse).isUsable t = false) ∧
    ((300 : Int) ≤ tokenExpiryBufferInSeconds →
      (⟨"t", "a", 300, 7⟩ : AuthTokenResponse).isUsable 7 = false)) :=
  isUsable_spec ⟨"t", "a", 300, 7⟩ 7

/-- C2: every `scrape` increments the attempts counter by exactly one (the
increment is unconditional and happens first, on the bumped state all later
steps run); `scrape` is a total function into exporter states, so no error
reaches its caller; when the fetch fails the failure counter grows by exactly
one and when it succeeds the failure counter is untouched; and across any
sequence of scrapes neither counter ever decreases. -/
theorem scrape_counter_spec (e : Exporter) (env : Env) (envs : List Env) :
    (e.scrape env).totalScrapes = e.totalScrapes + 1 ∧
    ((e.bumped.fetchRateLimit env).result.isOk = false →
      (e.scrape env).scrapeFailures = e.scrapeFailures + 1) ∧
    ((e.bumped.fetchRateLimit env).result.isOk = true →
      (e.scrape env).scrapeFailures = e.scrapeFailures) ∧
    e.totalScrapes ≤ (e.scrapeSeq envs).totalScrapes ∧
    e.scrapeFailures ≤ (e.scrapeSeq envs).scrapeFailures :=
  ⟨scrape_totalScrapes e env, scrape_failures_fail e env, scrape_failures_ok e env,
    scrapeSeq_totalScrapes_le envs e, scrapeSeq_failures_le envs e⟩

/-- Closed instance of `scrape_counter_spec` on a fresh exporter, a failing
world (no auth endpoint reachable) and a two-scrape sequence. -/
theorem scrape_counter_spec_witness :
    (NewExporter.scrape ⟨0, none, none⟩).totalScrapes = NewExporter.totalScrapes + 1 ∧
    ((NewExporter.bumped.fetchRateLimit ⟨0, none, none⟩).result.isOk = false →
      (NewExporter.scrape ⟨0, none, none⟩).scrapeFailures = NewExporter.scrapeFailures + 1) ∧
    ((NewExporter.bumped.fetchRateLimit ⟨0, none, none⟩).result.isOk = true →
      (NewExporter.scrape ⟨0, none, none⟩).scrapeFailures = NewExporter.scrapeFailures) ∧
    NewExporter.totalScrapes ≤ (NewExporter.scrapeSeq [⟨0, none, none⟩, ⟨1, none, none⟩]).totalScrapes ∧
    NewExporter.scrapeFailures ≤ (NewExporter.scrapeSeq [⟨0, none, none⟩, ⟨1, none, none⟩]).scrapeFailures :=
  scrape_counter_spec NewExporter ⟨0, none, none⟩ [⟨0, none, none⟩, ⟨1, none, none⟩]

/-- C3: a scrape that fails at any stage leaves all three published
observation fields (limit, remaining, source identifier) at their pre-scrape
values, and a fully successful scrape replaces all three together with the
parsed values. -/
theorem scrape_observation_spec (e : Exporter) (env : Env) :
    ((e.bumped.fetchRateLimit env).result.isOk = false →
      (e.scrape env).limit = e.limit ∧ (e.scrape env).remaining = e.remaining ∧
        (e.scrape env).sourceIP = e.sourceIP) ∧
    (∀ l r s, (e.bumped.fetchRateLimit env).result = .ok (l, r, s) →
      (e.scrape env).limit = l ∧ (e.scrape env).remaining = r ∧
        (e.scrape env).sourceIP = s) :=
  ⟨scrape_obs_of_fail e env, fun l r s h => scrape_obs_of_ok e env l r s h⟩

/-- Closed instance of `scrape_observation_spec`: the probe answers 2xx with
a parsable limit header but no remaining header, and the observation is
untouched. -/
theorem scrape_observation_spec_witness :
    ((NewExporter.bumped.fetchRateLimit
        ⟨0, some ⟨200, [], .obj (some "t") (some "a") (some 300) (some 0)⟩,
          some ⟨200, [("RateLimit-Limit", "100;m21600")], .malformed⟩⟩).result.isOk = false →
      (NewExporter.scrape
        ⟨0, some ⟨200, [], .obj (some "t") (some "a") (some 300) (some 0)⟩,
          some ⟨200, [("RateLimit-Limit", "100;m21600")], .malformed⟩⟩).limit = NewExporter.limit ∧
      (NewExporter.scrape
        ⟨0, some ⟨200, [], .obj (some "t") (some "a") (some 300) (some 0)⟩,
          some ⟨200, [("RateLimit-Limit", "100;m21600")], .malformed⟩⟩).remaining = NewExporter.remaining ∧
      (NewExporter.scrape
        ⟨0, some ⟨200, [], .obj (some "t") (some "a") (some 300) (some 0)⟩,
          some ⟨200, [("RateLimit-Limit", "100;m21600")], .malformed⟩⟩).sourceIP = NewExporter.sourceIP) ∧
    (NewExporter.bumped.fetchRateLimit
        ⟨0, some ⟨200, [], .obj (some "t") (some "a") (some 300) (some 0)⟩,
          some ⟨200, [("RateLimit-Limit", "100;m21600")], .malformed⟩⟩).result.isOk = false :=
  ⟨(scrape_observation_spec NewExporter _).1, by decide⟩

/-- C4: a failed token exchange (transport error, non-2xx auth status, or a
body the decoder rejects) returns an error and leaves the exporter — in
particular the cached credential — exactly as it was; the cache changes only
when an exchange succeeds, and then the new credential replaces the old one
wholesale. -/
theorem fetchToken_cache_spec (e : Exporter) (env : Env) :
    ((e.fetchToken env).result.isOk = false → (e.fetchToken env).exporter = e) ∧
    ((e.fetchToken env).exporter = e ∨
      ∃ t, (e.fetchToken env).result = .ok t.token ∧
        (e.fetchToken env).exporter = { e with authToken := some t }) ∧
    (e.hasUsableToken env.now = false →
      (env.authResponse = none → (e.fetchToken env).result = .error ()) ∧
      (∀ r, env.authResponse = some r → ¬(200 ≤ r.statusCode ∧ r.statusCode < 300) →
        (e.fetchToken env).result = .error ()) ∧
      (∀ r, env.authResponse = some r → decodeAuthTokenResponse r.body = none →
        (e.fetchToken env).result = .error ())) := by
  rcases fetchToken_cases e env with ⟨t, ht, hi, hft⟩ |
    ⟨hu, ⟨hH, hft⟩ | ⟨r, hH, ⟨hdec, hft⟩ | ⟨t, hdec, hft⟩⟩⟩
  · rw [hft]
    refine ⟨fun h => by simp [Except.isOk, Except.toBool] at h, Or.inl rfl, fun hno => ?_⟩
    unfold Exporter.hasUsableToken at hno
    rw [ht] at hno
    simp [hi] at hno
  · rw [hft]
    exact ⟨fun _ => rfl, Or.inl rfl,
      fun _ => ⟨fun _ => rfl, fun _ _ _ => rfl, fun _ _ _ => rfl⟩⟩
  · rw [hft]
    exact ⟨fun _ => rfl, Or.inl rfl,
      fun _ => ⟨fun _ => rfl, fun _ _ _ => rfl, fun _ _ _ => rfl⟩⟩
  · rw [hft]
    refine ⟨fun h => by simp [Except.isOk, Except.toBool] at h, Or.inr ⟨t, rfl, rfl⟩,
      fun _ => ⟨fun h0 => ?_, fun r2 hr2 hbad => ?_, fun r2 hr2 hd => ?_⟩⟩
    · rw [h0] at hH; cases hH
    · rw [hr2] at hH
      unfold fetchHTTP at hH
      dsimp only at hH
      rw [if_neg hbad] at hH
      cases hH
    · rw [hr2] at hH
      unfold fetchHTTP at hH
      dsimp only at hH
      split at hH
      · injection hH with h2
        subst h2
        rw [hd] at hdec
        cases hdec
      · cases hH

/-- Closed instance of `fetchToken_cache_spec`: a transport failure of the
auth endpoint leaves a fresh exporter untouched. -/
theorem fetchToken_cache_spec_witness :
    (NewExporter.fetchToken ⟨0, none, none⟩).exporter = NewExporter ∧
    (NewExporter.fetchToken ⟨0, none, none⟩).result = .error () :=
  ⟨(fetchToken_cache_spec NewExporter ⟨0, none, none⟩).1 (by decide),
    ((fetchToken_cache_spec NewExporter ⟨0, none, none⟩).2.2 (by decide)).1 rfl⟩

/-- C5 is refuted: on a 2xx auth response whose body is the empty JSON object,
the decoder succeeds with zero values, so `parseTokenResponse` returns `.ok`
of the empty token (not an error), the zero-valued credential is stored, and
a scrape using such an auth response is not counted as a failure — it
publishes the probe observation. -/
theorem parseTokenResponse_emptyObject_counterexample :
    (NewExporter.parseTokenResponse (.obj none none none none)).1.isOk = true ∧
    (NewExporter.parseTokenResponse (.obj none none none none)).2.authToken =
      some ⟨"", "", 0, 0⟩ ∧
    (NewExporter.scrape emptyObjectEnv).scrapeFailures = 0 ∧
    (NewExporter.scrape emptyObjectEnv).limit = 100 ∧
    (NewExporter.scrape emptyObjectEnv).remaining = 76 := by
  refine ⟨rfl, rfl, ?_, ?_, ?_⟩ <;> decide

/-- C5 amended: for every 2xx auth response whose body is a structurally
valid JSON object with none of the expected fields, decoding succeeds with Go
zero values: `parseTokenResponse` returns the empty token string and stores
the zero-valued credential wholesale, and `fetchToken` succeeds with that
empty bearer instead of failing the exchange. -/
theorem parseTokenResponse_emptyObject_spec (e : Exporter) (env : Env) (r : Response)
    (hno : e.hasUsableToken env.now = false)
    (hr : env.authResponse = some r)
    (hst : 200 ≤ r.statusCode ∧ r.statusCode < 300)
    (hbody : r.body = .obj none none none none) :
    e.parseTokenResponse r.body = (.ok "", { e with authToken := some ⟨"", "", 0, 0⟩ }) ∧
    e.fetchToken env = ⟨.ok "", { e with authToken := some ⟨"", "", 0, 0⟩ }, 1⟩ := by
  have hdec : decodeAuthTokenResponse r.body = some ⟨"", "", 0, 0⟩ := by
    rw [hbody]
    rfl
  refine ⟨?_, fetchToken_fresh_ok e env r ⟨"", "", 0, 0⟩ hno hr hst hdec⟩
  unfold Exporter.parseTokenResponse
  rw [hdec]

/-- Closed instance of `parseTokenResponse_emptyObject_spec` on a fresh
exporter. -/
theorem parseTokenResponse_emptyObject_spec_witness :
    NewExporter.parseTokenResponse (JsonBody.obj none none none none) =
      (.ok "", { NewExporter with authToken := some ⟨"", "", 0, 0⟩ }) ∧
    NewExporter.fetchToken emptyObjectEnv =
      ⟨.ok "", { NewExporter with authToken := some ⟨"", "", 0, 0⟩ }, 1⟩ :=
  parseTokenResponse_emptyObject_spec NewExporter emptyObjectEnv
    ⟨200, [], .obj none none none none⟩ (by decide) rfl (by decide) rfl

/-- C6: when the token exchange succeeds and the probe answers 2xx carrying
`RateLimit-Limit: 100;m21600` and `RateLimit-Remaining: 76;m21600`, the
scrape publishes limit 100 and remaining 76 (the number before the first
separator, the window descriptor discarded), bumps the attempts counter by
exactly one and leaves the failure counter unchanged. -/
theorem scrape_happy_path_spec (e : Exporter) (env : Env) (pr : Response)
    (htok : (e.bumped.fetchToken env).result.isOk = true)
    (hpr : env.probeResponse = some pr)
    (hst : 200 ≤ pr.statusCode ∧ pr.statusCode < 300)
    (hl : pr.getHeader "RateLimit-Limit" = "100;m21600")
    (hr : pr.getHeader "RateLimit-Remaining" = "76;m21600") :
    (e.scrape env).limit = 100 ∧ (e.scrape env).remaining = 76 ∧
    (e.scrape env).totalScrapes = e.totalScrapes + 1 ∧
    (e.scrape env).scrapeFailures = e.scrapeFailures := by
  rcases hres : (e.bumped.fetchToken env).result with u | tok
  · rw [hres] at htok
    simp [Except.isOk, Except.toBool] at htok
  · have hparse : parseRateLimitHeaders pr =
        .ok (100, 76, pr.getHeader "docker-ratelimit-source") := by
      unfold parseRateLimitHeaders
      rw [hl, hr]
      rw [(by decide : parseFloat "100;m21600" = some 100)]
      rw [(by decide : parseFloat "76;m21600" = some 76)]
    have hfr := fetchRateLimit_result_of_token_ok e.bumped env tok pr hres hpr hst
    have hok : (e.bumped.fetchRateLimit env).result =
        .ok (100, 76, pr.getHeader "docker-ratelimit-source") := by
      rw [hfr.1, hparse]
    obtain ⟨h1, h2, _⟩ := scrape_obs_of_ok e env 100 76 _ hok
    exact ⟨h1, h2, scrape_totalScrapes e env,
      scrape_failures_ok e env (by rw [hok]; rfl)⟩

/-- Closed instance of `scrape_happy_path_spec` on a fresh exporter and the
happy-path world. -/
theorem scrape_happy_path_spec_witness :
    (NewExporter.scrape happyEnv).limit = 100 ∧
    (NewExporter.scrape happyEnv).remaining = 76 ∧
    (NewExporter.scrape happyEnv).totalScrapes = NewExporter.totalScrapes + 1 ∧
    (NewExporter.scrape happyEnv).scrapeFailures = NewExporter.scrapeFailures :=
  scrape_happy_path_spec NewExporter happyEnv
    ⟨200, [("RateLimit-Limit", "100;m21600"),
      ("RateLimit-Remaining", "76;m21600")], .malformed⟩
    (by decide) rfl (by decide) (by decide) (by decide)

/-- C7: whenever a cached credential is held and judged usable against the
injected clock, `fetchToken` answers straight from the cache: zero requests
reach the authentication endpoint, the returned bearer is the cached
credential's `access_token`, and the state is untouched. -/
theorem fetchToken_cached_reuse_spec (e : Exporter) (env : Env) (t : AuthTokenResponse)
    (hcache : e.authToken = some t) (husable : t.isUsable env.now = true) :
    (e.fetchToken env).authCalls = 0 ∧
    e.fetchToken env = ⟨.ok t.accessToken, e, 0⟩ :=
  ⟨by rw [fetchToken_cached e env t hcache husable],
    fetchToken_cached e env t hcache husable⟩

/-- Closed instance of `fetchToken_cached_reuse_spec`: the cached token is
served even though no auth endpoint is reachable at all. -/
theorem fetchToken_cached_reuse_spec_witness :
    (cachedExporter.fetchToken ⟨0, none, none⟩).authCalls = 0 ∧
    cachedExporter.fetchToken ⟨0, none, none⟩ =
      ⟨.ok cachedTok.accessToken, cachedExporter, 0⟩ :=
  fetchToken_cached_reuse_spec cachedExporter ⟨0, none, none⟩ cachedTok rfl (by decide)

/-- C9: a fresh exchange returns the JSON `token` field while reuse of the
cached credential returns the JSON `access_token` field, so when an auth
response populates the two fields differently, consecutive `fetchToken` calls
hand different bearer strings to the probe. -/
theorem fetchToken_field_asymmetry_spec (e : Exporter) (env env2 : Env) (r : Response)
    (t : AuthTokenResponse)
    (hno : e.hasUsableToken env.now = false)
    (hr : env.authResponse = some r)
    (hst : 200 ≤ r.statusCode ∧ r.statusCode < 300)
    (hdec : decodeAuthTokenResponse r.body = some t)
    (husable : t.isUsable env2.now = true) :
    (e.fetchToken env).result = .ok t.token ∧
    ((e.fetchToken env).exporter.fetchToken env2).result = .ok t.accessToken ∧
    (t.token ≠ t.accessToken →
      (e.fetchToken env).result ≠ ((e.fetchToken env).exporter.fetchToken env2).result) := by
  have hft := fetchToken_fresh_ok e env r t hno hr hst hdec
  have hft2 := fetchToken_cached { e with authToken := some t } env2 t rfl husable
  refine ⟨by rw [hft], ?_, fun hne => ?_⟩
  · rw [hft]
    dsimp only
    rw [hft2]
  · rw [hft]
    dsimp only
    rw [hft2]
    dsimp only
    intro hcontra
    injection hcontra with h4
    exact hne h4

/-- Closed instance of `fetchToken_field_asymmetry_spec`: the auth body
carries token `A` and access token `B`; the first call returns `A`, the
second `B`. -/
theorem fetchToken_field_asymmetry_spec_witness :
    (NewExporter.fetchToken asymEnv).result = .ok "A" ∧
    ((NewExporter.fetchToken asymEnv).exporter.fetchToken ⟨0, none, none⟩).result = .ok "B" ∧
    (("A" : String) ≠ "B" →
      (NewExporter.fetchToken asymEnv).result ≠
        ((NewExporter.fetchToken asymEnv).exporter.fetchToken ⟨0, none, none⟩).result) :=
  fetchToken_field_asymmetry_spec NewExporter asymEnv ⟨0, none, none⟩
    ⟨200, [], .obj (some "A") (some "B") (some 300) (some 0)⟩ ⟨"A", "B", 300, 0⟩
    (by decide) rfl (by decide) (by decide) (by decide)

/-- C10: a successful fresh exchange returns the decoded token with no
usability check — even a credential whose `expires_in` is at most the buffer,
hence unusable from the instant it is issued, is returned and carried as the
probe bearer; the usability judgment gates only reuse of a cached
credential. -/
theorem fetchToken_fresh_unchecked_spec (e : Exporter) (env : Env) (r : Response)
    (t : AuthTokenResponse)
    (hno : e.hasUsableToken env.now = false)
    (hr : env.authResponse = some r)
    (hst : 200 ≤ r.statusCode ∧ r.statusCode < 300)
    (hdec : decodeAuthTokenResponse r.body = some t)
    (hshort : t.expiresIn ≤ tokenExpiryBufferInSeconds) :
    (e.fetchToken env).result = .ok t.token ∧
    (∀ now2 : Int, t.issuedAt ≤ now2 → t.isUsable now2 = false) ∧
    (e.fetchRateLimit env).bearer = some ("Bearer " ++ t.token) := by
  have hft := fetchToken_fresh_ok e env r t hno hr hst hdec
  refine ⟨by rw [hft], fun now2 hn => ?_, ?_⟩
  · unfold tokenExpiryBufferInSeconds at hshort
    unfold AuthTokenResponse.isUsable AuthTokenResponse.roughExpiry
      secondNs tokenExpiryBufferInSeconds
    simp
    omega
  · unfold Exporter.fetchRateLimit
    rw [hft]
    dsimp only
    cases fetchHTTP env.probeResponse <;> rfl

/-- Closed instance of `fetchToken_fresh_unchecked_spec`: a token valid for
1 second (below the 2-second buffer) is still returned and attached to the
probe request. -/
theorem fetchToken_fresh_unchecked_spec_witness :
    (NewExporter.fetchToken shortEnv).result = .ok "sT" ∧
    (NewExporter.fetchRateLimit shortEnv).bearer = some ("Bearer " ++ "sT") :=
  ⟨(fetchToken_fresh_unchecked_spec NewExporter shortEnv
      ⟨200, [], .obj (some "sT") (some "sA") (some 1) (some 0)⟩ ⟨"sT", "sA", 1, 0⟩
      (by decide) rfl (by decide) (by decide) (by decide)).1,
    (fetchToken_fresh_unchecked_spec NewExporter shortEnv
      ⟨200, [], .obj (some "sT") (some "sA") (some 1) (some 0)⟩ ⟨"sT", "sA", 1, 0⟩
      (by decide) rfl (by decide) (by decide) (by decide)).2.2⟩

end DockerHubExporter
